import Mathlib

/- Verification of the Qiskit rewrite engine (the function fix_qiskit_code of
src/qiskit_tools.py).  The Python function is embedded shallowly: a source
buffer is a `List Char`, every regular expression of the source is encoded as
an explicit pattern value of type `RE`, and a small backtracking matcher with
Python re semantics (leftmost match, greedy and lazy quantifiers, word
boundaries, multiline caret, ordered alternation, capture groups) executes
them.  The character classes for spaces, word characters and digits are
modelled over their ASCII ranges, which covers the source files the tool
targets. -/

namespace QiskitFix

/-- ASCII model of the Python regex class for whitespace (also used by
the Python method str.strip). -/
def isSpace (c : Char) : Bool :=
  c == ' ' || c == '\t' || c == '\n' || c == '\r' || c == '\x0b' || c == '\x0c'

/-- ASCII model of the Python regex class for word characters
(letters, digits, underscore). -/
def isWordChar (c : Char) : Bool :=
  c.isAlpha || c.isDigit || c == '_'

/-- Regular expression syntax: exactly the constructs used by the patterns
of fix_qiskit_code.  `one` holds a single-character predicate (a character
class), `star`/`opt` carry a greediness flag (`true` = greedy), `wb` is a
word boundary, `bol` is the multiline caret. -/
inductive RE where
  | eps : RE
  | str : List Char → RE
  | one : (Char → Bool) → RE
  | seq : RE → RE → RE
  | alt : RE → RE → RE
  | star : Bool → RE → RE
  | opt : Bool → RE → RE
  | group : Nat → RE → RE
  | wb : RE
  | bol : RE

/-- Capture list: entries (group index, start, stop), newest first. -/
abbrev Caps := List (Nat × Nat × Nat)

abbrev MRes := Option (Nat × Caps)

abbrev Cont := List Char → Nat → Option Char → Caps → MRes

def isWordOpt (c : Option Char) : Bool :=
  match c with
  | some c => isWordChar c
  | none => false

/-- Python regex word boundary at the point between `prev` (the character
just before the current offset, `none` at the buffer start) and the head of
`rem` (the rest of the buffer): the word-ness of the two sides differs. -/
def wordBoundaryAt (prev : Option Char) (rem : List Char) : Bool :=
  isWordOpt prev != isWordOpt rem.head?

/-- Multiline caret: buffer start or right after a newline. -/
def atLineStartAt (prev : Option Char) : Bool :=
  match prev with
  | none => true
  | some c => c == '\n'

/-- Backtracking matcher in continuation style.  The state is the rest of
the buffer `rem` together with the absolute offset `pos` and the character
just before it (so every step is constant time).  Alternation prefers its
left branch, greedy quantifiers prefer longer matches, lazy ones shorter,
exactly as in the Python re module.  A star stops iterating when the body
matched without consuming input (its bodies here always consume).  The fuel
argument only bounds the recursion; `bigFuel` below is always sufficient
for these patterns. -/
def matchRE : Nat → RE → List Char → Nat → Option Char → Caps → Cont → MRes
  | 0, _, _, _, _, _, _ => none
  | Nat.succ f, r, rem, pos, prev, caps, k =>
    match r with
    | RE.eps => k rem pos prev caps
    | RE.str cs =>
      if cs.isPrefixOf rem then
        k (rem.drop cs.length) (pos + cs.length)
          (match cs.getLast? with | some c => some c | none => prev) caps
      else none
    | RE.one p =>
      match rem with
      | c :: rest => if p c then k rest (pos + 1) (some c) caps else none
      | [] => none
    | RE.seq a b =>
      matchRE f a rem pos prev caps (fun rm q pv c => matchRE f b rm q pv c k)
    | RE.alt a b =>
      match matchRE f a rem pos prev caps k with
      | some res => some res
      | none => matchRE f b rem pos prev caps k
    | RE.star g a =>
      let more : MRes :=
        matchRE f a rem pos prev caps
          (fun rm q pv c =>
            if pos < q then matchRE f (RE.star g a) rm q pv c k else none)
      if g then
        match more with
        | some res => some res
        | none => k rem pos prev caps
      else
        match k rem pos prev caps with
        | some res => some res
        | none => more
    | RE.opt g a =>
      if g then
        match matchRE f a rem pos prev caps k with
        | some res => some res
        | none => k rem pos prev caps
      else
        match k rem pos prev caps with
        | some res => some res
        | none => matchRE f a rem pos prev caps k
    | RE.group i a =>
      matchRE f a rem pos prev caps (fun rm q pv c => k rm q pv ((i, pos, q) :: c))
    | RE.wb => if wordBoundaryAt prev rem then k rem pos prev caps else none
    | RE.bol => if atLineStartAt prev then k rem pos prev caps else none

def bigFuel (input : List Char) : Nat := 64 * (input.length + 2)

/-- Attempt a match anchored at the state (`rem`, `pos`, `prev`); returns
the end offset and the captures. -/
def tryMatchAt (pat : RE) (fuel : Nat) (rem : List Char) (pos : Nat)
    (prev : Option Char) : Option (Nat × Caps) :=
  matchRE fuel pat rem pos prev [] (fun _ q _ c => some (q, c))

/-- One regex match record: the span of group 0 plus the captures. -/
structure RMatch where
  start : Nat
  stop : Nat
  caps : Caps
deriving DecidableEq, Repr

/-- Character just before offset `pos + k` when the buffer rest at `pos`
is `rem` and the character before `pos` is `prev`. -/
def advPrev (rem : List Char) (k : Nat) (prev : Option Char) : Option Char :=
  if k = 0 then prev
  else
    match rem.get? (k - 1) with
    | some c => some c
    | none => prev

/-- Scan for all leftmost non-overlapping matches (Python re.finditer):
try every offset from the left (including the end of the buffer), and
continue after the end of each match. -/
def findAllAux (pat : RE) (fuel0 : Nat) : Nat → List Char → Nat → Option Char → List RMatch
  | 0, _, _, _ => []
  | Nat.succ f, rem, pos, prev =>
    match tryMatchAt pat fuel0 rem pos prev with
    | some (stop, caps) =>
      { start := pos, stop := stop, caps := caps } ::
        (if pos < stop then
          findAllAux pat fuel0 f (rem.drop (stop - pos)) stop
            (advPrev rem (stop - pos) prev)
        else
          match rem with
          | c :: rest => findAllAux pat fuel0 f rest (pos + 1) (some c)
          | [] => [])
    | none =>
      match rem with
      | c :: rest => findAllAux pat fuel0 f rest (pos + 1) (some c)
      | [] => []

def findAll (pat : RE) (input : List Char) : List RMatch :=
  findAllAux pat (bigFuel input) (input.length + 2) input 0 none

/-- First match, if any (Python re.search). -/
def findFirst (pat : RE) (input : List Char) : Option RMatch :=
  (findAll pat input).head?

def grpSpan (m : RMatch) (i : Nat) : Option (Nat × Nat) :=
  match m.caps.find? (fun t => t.1 == i) with
  | some t => some (t.2.1, t.2.2)
  | none => none

/-- Text of capture group `i` (Python match.group(i)); `none` when the
group did not participate in the match. -/
def grpText (input : List Char) (m : RMatch) (i : Nat) : Option (List Char) :=
  match grpSpan m i with
  | some (s, e) => some ((input.take e).drop s)
  | none => none

def grpTextD (input : List Char) (m : RMatch) (i : Nat) : List Char :=
  (grpText input m i).getD []

/-- Text of the whole match (Python match.group(0)). -/
def matchText (input : List Char) (m : RMatch) : List Char :=
  (input.take m.stop).drop m.start

/-- Splice replacements into the original buffer, walking the (sorted,
non-overlapping) spans left to right; `cur` is the read cursor. -/
def spliceAll (orig : List Char) : Nat → List (Nat × Nat × List Char) → List Char
  | cur, [] => orig.drop cur
  | cur, (s, e, r) :: rest => ((orig.take s).drop cur) ++ r ++ spliceAll orig e rest

/-- Python re.sub with a replacement function. -/
def subF (pat : RE) (repl : List Char → RMatch → List Char) (input : List Char) :
    List Char :=
  spliceAll input 0 ((findAll pat input).map (fun m => (m.start, m.stop, repl input m)))

/-- Python re.sub with count = 1: replace only the first match. -/
def sub1 (pat : RE) (repl : List Char → RMatch → List Char) (input : List Char) :
    List Char :=
  match findFirst pat input with
  | none => input
  | some m => input.take m.start ++ repl input m ++ input.drop m.stop

/- Python string helpers used by the replacement callbacks. -/

/-- Python str.split on a single separator character. -/
def splitChar (c : Char) : List Char → List (List Char)
  | [] => [[]]
  | d :: rest =>
    if d == c then [] :: splitChar c rest
    else
      match splitChar c rest with
      | [] => [[d]]
      | h :: t => (d :: h) :: t

/-- Python sep.join(items). -/
def joinSep (sep : List Char) : List (List Char) → List Char
  | [] => []
  | [x] => x
  | x :: y :: xs => x ++ sep ++ joinSep sep (y :: xs)

def dropTrail (l : List Char) : List Char := (l.reverse.dropWhile isSpace).reverse

/-- Python str.strip(): remove whitespace from both ends. -/
def pyStrip (l : List Char) : List Char := dropTrail (l.dropWhile isSpace)

/-- Python substring containment (the `in` operator on str). -/
def containsSub (pat : List Char) : List Char → Bool
  | [] => pat.isEmpty
  | c :: rest => pat.isPrefixOf (c :: rest) || containsSub pat rest

/-- Python str.replace(pat, rep, 1): replace the first occurrence only. -/
def replaceFirstSub (pat rep : List Char) : List Char → List Char
  | [] => []
  | c :: rest =>
    if pat.isPrefixOf (c :: rest) then rep ++ (c :: rest).drop pat.length
    else c :: replaceFirstSub pat rep rest

/-- Number of offsets at which `pat` occurs as a substring. -/
def countSub (pat : List Char) : List Char → Nat
  | [] => 0
  | c :: rest => (if pat.isPrefixOf (c :: rest) then 1 else 0) + countSub pat rest

/- The regex patterns of fix_qiskit_code, in source order. -/

def res (s : String) : RE := RE.str s.data

def rcat (l : List RE) : RE := l.foldr RE.seq RE.eps

/-- Greedy plus: one occurrence then a greedy star. -/
def star1 (r : RE) : RE := RE.seq r (RE.star true r)

def spaceC : RE := RE.one isSpace
def wordC : RE := RE.one isWordChar
def digitC : RE := RE.one Char.isDigit
def quoteC : RE := RE.one (fun c => c == Char.ofNat 39 || c == Char.ofNat 34)
def noSemiNl : RE := RE.one (fun c => !(c == ';' || c == '\n'))
def noCommaNl : RE := RE.one (fun c => !(c == ',' || c == '\n'))
def notNl : RE := RE.one (fun c => !(c == '\n'))
def sstar : RE := RE.star true spaceC
def splus : RE := star1 spaceC
def wplus : RE := star1 wordC
def dplus : RE := star1 digitC

/-- Source line 133: the import statement pattern whose list mentions Aer. -/
def aerImportPattern : RE :=
  rcat [res "from", splus, res "qiskit", splus, res "import", splus,
    RE.group 1 (rcat [RE.star true noSemiNl, RE.wb, res "Aer", RE.wb,
      RE.star true noSemiNl])]

/-- Source line 155: the import statement pattern mentioning BasicAer. -/
def basicaerImportPattern : RE :=
  rcat [res "from", splus, res "qiskit", splus, res "import", splus,
    RE.group 1 (rcat [RE.star true noSemiNl, RE.wb, res "BasicAer", RE.wb,
      RE.star true noSemiNl])]

/-- Source line 182: the import statement pattern mentioning execute. -/
def executeImportPattern : RE :=
  rcat [res "from", splus, res "qiskit", splus, res "import", splus,
    RE.group 1 (rcat [RE.star true noSemiNl, RE.wb, res "execute", RE.wb,
      RE.star true noSemiNl])]

/-- Source line 208: the BasicAer named-backend lookup of qasm_simulator. -/
def basicAerQasmPattern : RE :=
  rcat [res "BasicAer.get_backend(", quoteC, res "qasm_simulator", quoteC, res ")"]

/-- Source line 217: the Aer named-backend lookup of qasm_simulator. -/
def aerQasmPattern : RE :=
  rcat [res "Aer.get_backend(", quoteC, res "qasm_simulator", quoteC, res ")"]

/-- Source lines 224 to 227: the legacy combined execute call.  Group 1 is
the result name, group 2 the circuit name, group 3 the backend string of a
named lookup, group 4 a bare backend variable, group 5 the shot count. -/
def executePattern : RE :=
  rcat [RE.group 1 wplus, sstar, res "=", sstar, res "execute(", sstar,
    RE.group 2 wplus, sstar, res ",", sstar,
    RE.alt
      (rcat [res "Aer.get_backend(", sstar, quoteC, RE.group 3 wplus, quoteC,
        sstar, res ")"])
      (RE.group 4 wplus),
    sstar,
    RE.opt true (rcat [res ",", sstar, res "shots", sstar, res "=", sstar,
      RE.group 5 dplus]),
    sstar, res ")"]

/-- Source line 235: the bare search for a from-qiskit-import statement. -/
def fromQiskitImportPat : RE :=
  rcat [res "from", splus, res "qiskit", splus, res "import", splus]

/-- Source line 237: the pattern whose single replacement extends an
existing from-qiskit-import list. -/
def extendImportPat : RE :=
  rcat [res "from", splus, res "qiskit", splus, res "import", splus,
    RE.group 1 (rcat [RE.star true noCommaNl,
      RE.star true (rcat [res ",", sstar, RE.star true noCommaNl])])]

/-- Source line 248: a comment line (multiline caret, lazy dot star). -/
def commentLinePat : RE :=
  rcat [RE.bol, res "#", RE.star false notNl, res "\n"]

/-- Source line 253: a line that is an import statement. -/
def importLinePat : RE :=
  rcat [RE.bol, RE.alt (res "from") (res "import"), RE.star false notNl, res "\n"]

/-- Source line 288: an import list naming transpile twice. -/
def dupTranspilePattern : RE :=
  rcat [res "from qiskit import ",
    RE.star true (RE.group 1 (rcat [RE.star true noCommaNl, res ",", sstar])),
    res "transpile",
    RE.star true (RE.group 2 (rcat [res ",", sstar, RE.star true noCommaNl])),
    res ",", sstar, res "transpile",
    RE.star true (RE.group 3 (rcat [res ",", sstar, RE.star true noCommaNl]))]

/-- Source line 291: a run of standalone transpile import lines. -/
def dupTranspileLinePattern : RE :=
  star1 (res "from qiskit import transpile\n")

/- The rewrite pipeline of fix_qiskit_code, stage by stage in source order. -/

/-- Source line 127: the two-line installation reminder. -/
def bannerText : List Char :=
  ("# Make sure to install qiskit-aer first:\n# pip install qiskit-aer\n\n").data

/-- Source lines 126 to 127: prepend the reminder when the buffer mentions
qiskit and does not already carry the reminder marker. -/
def applyBanner (code : List Char) : List Char :=
  if containsSub ("qiskit").data code &&
      !containsSub ("pip install qiskit-aer").data code then
    bannerText ++ code
  else code

/-- Source lines 135 to 149: rebuild an import list that mentioned Aer. -/
def fix_aer_import (imports : List Char) : List Char :=
  let import_items := (splitChar ',' imports).map pyStrip
  let other_imports := import_items.filter (fun it => it != ("Aer").data)
  if other_imports.isEmpty then ("from qiskit_aer import Aer").data
  else ("from qiskit import ").data ++ joinSep (", ").data other_imports ++
    ("\nfrom qiskit_aer import Aer").data

/-- Source lines 157 to 175: rebuild an import list that mentioned BasicAer. -/
def fix_basicaer_import (imports : List Char) : List Char :=
  let import_items := (splitChar ',' imports).map pyStrip
  let other_imports := import_items.filter (fun it => it != ("BasicAer").data)
  let result :=
    if other_imports.isEmpty then []
    else ("from qiskit import ").data ++ joinSep (", ").data other_imports ++
      ("\n").data
  result ++ ("from qiskit.providers.basic_provider import BasicProvider").data

/-- Source lines 184 to 200: drop execute from an import list and make sure
transpile is listed. -/
def fix_execute_import (imports : List Char) : List Char :=
  let import_items := (splitChar ',' imports).map pyStrip
  let other_imports := import_items.filter (fun it => it != ("execute").data)
  let has_transpile := other_imports.contains ("transpile").data
  let other_imports :=
    if has_transpile then other_imports else other_imports ++ [("transpile").data]
  ("from qiskit import ").data ++ joinSep (", ").data other_imports

def aerImportRepl (inp : List Char) (m : RMatch) : List Char :=
  fix_aer_import (grpTextD inp m 1)

def basicaerImportRepl (inp : List Char) (m : RMatch) : List Char :=
  fix_basicaer_import (grpTextD inp m 1)

def executeImportRepl (inp : List Char) (m : RMatch) : List Char :=
  fix_execute_import (grpTextD inp m 1)

def qasmRepl (_ : List Char) (_ : RMatch) : List Char :=
  ("BasicProvider().get_backend(\"basic_simulator\")").data

def aerImportStage (code : List Char) : List Char :=
  subF aerImportPattern aerImportRepl code

def basicaerImportStage (code : List Char) : List Char :=
  subF basicaerImportPattern basicaerImportRepl code

def executeImportStage (code : List Char) : List Char :=
  subF executeImportPattern executeImportRepl code

def basicAerQasmStage (code : List Char) : List Char :=
  subF basicAerQasmPattern qasmRepl code

/-- Source lines 215 to 220: the Aer qasm lookup is only rewritten when the
buffer already mentions BasicProvider. -/
def qasmGuardStage (code : List Char) : List Char :=
  if containsSub ("BasicProvider").data code then subF aerQasmPattern qasmRepl code
  else code

/-- Source lines 247 to 249: end offset of the last comment line found
anywhere in the buffer (0 when there is none). -/
def lastCommentEnd (code : List Char) : Nat :=
  (findAll commentLinePat code).foldl (fun _ m => m.stop) 0

/-- Source lines 252 to 255: end offset of the last import line that starts
at or after `import_pos`. -/
def importsEndFrom (code : List Char) (import_pos : Nat) : Nat :=
  (findAll importLinePat code).foldl
    (fun acc m => if import_pos ≤ m.start then m.stop else acc) import_pos

/-- Offset at which the standalone transpile import is synthesized. -/
def synthInsertPos (code : List Char) : Nat :=
  importsEndFrom code (lastCommentEnd code)

/-- Source lambda at line 238: extend the first from-qiskit-import list by
transpile unless its list already mentions that word. -/
def extendImportRepl (inp : List Char) (m : RMatch) : List Char :=
  let g1 := grpTextD inp m 1
  if containsSub ("transpile").data g1 then matchText inp m
  else ("from qiskit import ").data ++ g1 ++ (", transpile").data

/-- Source lines 231 to 257: inject the transpile import, preferring to
extend an existing from-qiskit-import statement, otherwise synthesizing a
standalone line at `synthInsertPos`. -/
def addTranspileImport (code : List Char) : List Char :=
  if (findFirst fromQiskitImportPat code).isSome then
    sub1 extendImportPat extendImportRepl code
  else
    let p := synthInsertPos code
    code.take p ++ ("from qiskit import transpile\n").data ++ code.drop p

/-- Source line 230: the injection runs only when a legacy call matches and
no transpile import is present. -/
def transpileImportStage (code : List Char) : List Char :=
  if (findFirst executePattern code).isSome &&
      !containsSub ("from qiskit import transpile").data code &&
      !containsSub ("import qiskit.transpile").data code then
    addTranspileImport code
  else code

/-- Source lines 268 to 281: the replacement block of one legacy call site. -/
def buildReplacement (result_var circuit_var : List Char)
    (backend_name backend_var shots : Option (List Char)) : List Char :=
  let replacement := circuit_var ++ ("_transpiled = transpile(").data ++
    circuit_var ++ (")\n").data
  let replacement := replacement ++
    (match backend_var with
     | some bv => result_var ++ (" = ").data ++ bv ++ (".run(").data ++
        circuit_var ++ ("_transpiled").data
     | none =>
        ("simulator = Aer.get_backend(\x27").data ++
          (backend_name.getD ("None").data) ++ ("\x27)\n").data ++
          result_var ++ (" = simulator.run(").data ++ circuit_var ++
          ("_transpiled").data)
  let replacement := replacement ++
    (match shots with
     | some n => (", shots=").data ++ n
     | none => [])
  replacement ++ (")").data

/-- Replacement text of one match, with the groups read from the buffer the
matches were collected on. -/
def execRepl (orig : List Char) (m : RMatch) : List Char :=
  buildReplacement (grpTextD orig m 1) (grpTextD orig m 2) (grpText orig m 3)
    (grpText orig m 4) (grpText orig m 5)

/-- Source lines 260 to 285: process the matches in reverse order, each step
splicing the replacement over the span of the match. -/
def applyRevRepl (orig : List Char) (repl : List Char → RMatch → List Char)
    (ms : List RMatch) (code : List Char) : List Char :=
  ms.reverse.foldl (fun cur m => cur.take m.start ++ repl orig m ++ cur.drop m.stop)
    code

def replaceExecuteMatches (code : List Char) : List Char :=
  applyRevRepl code execRepl (findAll executePattern code) code

/-- Source lambda at line 289: drop the first repeated transpile mention. -/
def dup1Repl (inp : List Char) (m : RMatch) : List Char :=
  replaceFirstSub (", transpile").data [] (matchText inp m)

def dedup1Stage (code : List Char) : List Char :=
  subF dupTranspilePattern dup1Repl code

def dup2Repl (_ : List Char) (_ : RMatch) : List Char :=
  ("from qiskit import transpile\n").data

def dedup2Stage (code : List Char) : List Char :=
  subF dupTranspileLinePattern dup2Repl code

/-- The whole body of fix_qiskit_code, with the stages applied in the order
of the source: banner, the three import rules, the two qasm lookups, the
transpile import injection, the reverse-order call-site replacement, and
the two duplicate cleanups. -/
def fixCode (code : List Char) : List Char :=
  dedup2Stage (dedup1Stage (replaceExecuteMatches (transpileImportStage
    (qasmGuardStage (basicAerQasmStage (executeImportStage
      (basicaerImportStage (aerImportStage (applyBanner code)))))))))

/-- The engine under verification: fix_qiskit_code of src/qiskit_tools.py. -/
def fix_qiskit_code (code : String) : String :=
  String.mk (fixCode code.data)

/- Observations used by the claim statements. -/

def isCommentLine (l : List Char) : Bool := ("#").data.isPrefixOf l

def isImportLine (l : List Char) : Bool :=
  ("from").data.isPrefixOf l || ("import").data.isPrefixOf l

/-- Modelled from the spec: the insertion point for the synthesized import,
namely the offset immediately after the last contiguous run of leading
comment lines and the last contiguous run of leading import statements
(whichever ends further down).  Defined for comparison with the offset
`synthInsertPos` the code computes. -/
def leadingRunsEnd (code : List Char) : Nat :=
  let ls := splitChar '\n' code
  let cs := ls.takeWhile isCommentLine
  let imps := (ls.drop cs.length).takeWhile isImportLine
  ((cs ++ imps).map (fun l => l.length + 1)).sum

/-- How many lines of the buffer import the transpile symbol from qiskit. -/
def transpileImportCount (code : List Char) : Nat :=
  (splitChar '\n' code).countP (fun l =>
    ("from qiskit import ").data.isPrefixOf l &&
      ((splitChar ',' (l.drop ("from qiskit import ").data.length)).map
        pyStrip).contains ("transpile").data)

/- Concrete buffers used when the claims are settled on representatives. -/

def bareExecuteInput : String := "result = execute(qc, backend)"

def banneredExampleInput : String :=
  "# pip install qiskit-aer\nfrom qiskit import QuantumCircuit, Aer, execute\nqc = QuantumCircuit(2)\nresult = execute(qc, backend, shots=100)\n"

def separatedDupCallInput : String :=
  "from qiskit import transpile\nx = 1\nfrom qiskit import transpile\nresult = execute(qc, backend)\n"

def twoCallsExistingImportInput : String :=
  "from qiskit import QuantumCircuit\nr1 = execute(qc1, backend)\nr2 = execute(qc2, backend)\n"

def twoCallsNoImportInput : String := "r1 = execute(qc1, b1)\nr2 = execute(qc2, b2)\n"

def ruleCSeparatedInput : String :=
  "from qiskit import execute\nx=1\nfrom qiskit import execute\nresult = execute(qc, b)\n"

def cleanQiskitInput : String := "from qiskit import QuantumCircuit\n"

def cleanPlainInput : String := "x = 1\nprint(x)\n"

def lateCommentInput : String := "x = 1\n# late comment\nresult = execute(qc, backend)\n"

def leadingBlockInput : String := "# top comment\nimport os\nresult = execute(qc, backend)\n"

def separatedDupLinesInput : String :=
  "from qiskit import transpile\nx = 1\nfrom qiskit import transpile\n"

def consecutiveDupLinesInput : String :=
  "from qiskit import transpile\nfrom qiskit import transpile\nx = 1\n"

def twoNamedBackendInput : String :=
  "r1 = execute(qc1, Aer.get_backend(\"sv1\"))\nr2 = execute(qc2, Aer.get_backend(\"sv2\"))\n"

def dupTranspileLine : List Char := ("from qiskit import transpile\n").data

/-- The spans of a match list are in bounds, ordered left to right and
non-overlapping, starting at or after the cursor `cur`. -/
def spansOKb (len : Nat) : Nat → List RMatch → Bool
  | _, [] => true
  | cur, m :: ms =>
    decide (cur ≤ m.start) && decide (m.start ≤ m.stop) && decide (m.stop ≤ len) &&
      spansOKb len m.stop ms

/-- Forward splicing: walk the matches top to bottom, emitting the text
between call sites verbatim and each replacement block in place of its
match; `cur` is the read cursor. -/
def spliceFwd (src orig : List Char) (repl : List Char → RMatch → List Char) :
    Nat → List RMatch → List Char
  | cur, [] => src.drop cur
  | cur, m :: ms =>
    ((src.take m.start).drop cur) ++ repl orig m ++ spliceFwd src orig repl m.stop ms

/- Helper lemmas about the embedding. -/

set_option maxRecDepth 100000

/-- A substitution whose pattern matches nowhere returns the buffer. -/
theorem subF_of_no_match {pat : RE} {f : List Char → RMatch → List Char}
    {input : List Char} (h : findAll pat input = []) : subF pat f input = input := by
  simp [subF, h, spliceAll]

theorem applyBanner_of_clean {x : List Char}
    (h : containsSub ("qiskit").data x = false ∨
      containsSub ("pip install qiskit-aer").data x = true) :
    applyBanner x = x := by
  unfold applyBanner
  rcases h with h | h <;> simp [h]

theorem qasmGuardStage_of_no_match {x : List Char}
    (h : findAll aerQasmPattern x = []) : qasmGuardStage x = x := by
  unfold qasmGuardStage
  split
  · exact subF_of_no_match h
  · rfl

theorem transpileImportStage_of_no_match {x : List Char}
    (h : findAll executePattern x = []) : transpileImportStage x = x := by
  unfold transpileImportStage
  simp [findFirst, h]

theorem replaceExecuteMatches_of_no_match {x : List Char}
    (h : findAll executePattern x = []) : replaceExecuteMatches x = x := by
  unfold replaceExecuteMatches applyRevRepl
  simp [h]

theorem splitChar_ne_nil (c : Char) (l : List Char) : splitChar c l ≠ [] := by
  induction l with
  | nil => simp [splitChar]
  | cons d rest ih =>
    simp only [splitChar]
    split
    · simp
    · cases h : splitChar c rest with
      | nil => simp
      | cons a b => simp

/-- Splitting a chunk free of the separator returns the chunk whole. -/
theorem splitChar_no_sep {c : Char} :
    ∀ {l : List Char}, l.all (fun d => d != c) = true → splitChar c l = [l] := by
  intro l
  induction l with
  | nil => intro _; rfl
  | cons d rest ih =>
    intro h
    simp only [List.all_cons, Bool.and_eq_true, bne_iff_ne, ne_eq] at h
    simp only [splitChar, beq_iff_eq, if_neg h.1]
    rw [ih (by simpa using h.2)]

/-- Splitting at the first separator occurrence peels off the clean chunk. -/
theorem splitChar_append {c : Char} :
    ∀ {l1 : List Char} (l2 : List Char), l1.all (fun d => d != c) = true →
      splitChar c (l1 ++ c :: l2) = l1 :: splitChar c l2 := by
  intro l1
  induction l1 with
  | nil =>
    intro l2 _
    simp [splitChar]
  | cons d rest ih =>
    intro l2 h
    simp only [List.all_cons, Bool.and_eq_true, bne_iff_ne, ne_eq] at h
    simp only [List.cons_append, splitChar, beq_iff_eq, if_neg h.1, List.append_eq]
    rw [ih l2 (by simpa using h.2)]

theorem pyStrip_cons_space (l : List Char) : pyStrip (' ' :: l) = pyStrip l := rfl

/-- Round trip of the Python split, strip and join steps on a clean list
of import symbols: no symbol contains a comma, none carries outer
whitespace. -/
theorem split_join (syms : List (List Char)) :
    syms ≠ [] →
    (∀ s ∈ syms, s.all (fun d => d != ',') = true ∧ pyStrip s = s) →
    (splitChar ',' (joinSep (", ").data syms)).map pyStrip = syms := by
  induction syms with
  | nil => intro h _; cases h rfl
  | cons s rest ih =>
    intro _ hcl
    have hs := hcl s (by simp)
    cases rest with
    | nil =>
      rw [show joinSep (", ").data [s] = s from rfl, splitChar_no_sep hs.1]
      simp [hs.2]
    | cons s2 rest2 =>
      have hrest : ∀ t ∈ s2 :: rest2,
          t.all (fun d => d != ',') = true ∧ pyStrip t = t :=
        fun t ht => hcl t (by simp [ht])
      have ihr := ih (by simp) hrest
      have hjoin : joinSep (", ").data (s :: s2 :: rest2) =
          s ++ ',' :: ' ' :: joinSep (", ").data (s2 :: rest2) := by
        show s ++ (", ").data ++ joinSep (", ").data (s2 :: rest2) = _
        simp
      rw [hjoin, splitChar_append _ hs.1]
      cases e : splitChar ',' (joinSep (", ").data (s2 :: rest2)) with
      | nil => exact absurd e (splitChar_ne_nil _ _)
      | cons hd tl =>
        rw [e] at ihr
        have : splitChar ',' (' ' :: joinSep (", ").data (s2 :: rest2)) =
            (' ' :: hd) :: tl := by
          simp only [splitChar, e]
          rfl
        rw [this]
        simp only [List.map_cons, pyStrip_cons_space]
        simp only [List.map_cons] at ihr
        rw [hs.2, ihr]

/-- Replacing a sorted, non-overlapping match list in reverse order (the
strategy of the source loop) is the same as walking the matches top to
bottom and splicing each replacement in place: replacements never step on
the spans of the matches still pending, every rewritten block lands in the
original relative order, and the text between the spans is kept verbatim. -/
theorem applyRev_eq_spliceFwd (orig code : List Char)
    (repl : List Char → RMatch → List Char) :
    ∀ (ms : List RMatch) (cur : Nat), spansOKb code.length cur ms = true →
      applyRevRepl orig repl ms code = code.take cur ++ spliceFwd code orig repl cur ms := by
  intro ms
  induction ms with
  | nil =>
    intro cur _
    simp [applyRevRepl, spliceFwd]
  | cons m ms ih =>
    intro cur h
    simp only [spansOKb, Bool.and_eq_true, decide_eq_true_eq] at h
    obtain ⟨⟨⟨h1, h2⟩, h3⟩, h4⟩ := h
    have hfold : applyRevRepl orig repl (m :: ms) code =
        (applyRevRepl orig repl ms code).take m.start ++ repl orig m ++
          (applyRevRepl orig repl ms code).drop m.stop := by
      unfold applyRevRepl
      rw [List.reverse_cons, List.foldl_append]
      rfl
    rw [hfold, ih m.stop h4]
    have hlen : (code.take m.stop).length = m.stop := List.length_take_of_le h3
    have htake : (code.take m.stop ++ spliceFwd code orig repl m.stop ms).take m.start =
        code.take m.start := by
      rw [List.take_append_of_le_length (by rw [hlen]; exact h2), List.take_take,
        min_eq_left h2]
    have hdrop : (code.take m.stop ++ spliceFwd code orig repl m.stop ms).drop m.stop =
        spliceFwd code orig repl m.stop ms := by
      have := List.drop_left (code.take m.stop) (spliceFwd code orig repl m.stop ms)
      rwa [hlen] at this
    rw [htake, hdrop]
    have hsplit : code.take cur ++ (code.take m.start).drop cur = code.take m.start := by
      have := List.take_append_drop cur (code.take m.start)
      rwa [List.take_take, min_eq_left h1] at this
    simp only [spliceFwd]
    rw [← List.append_assoc, ← List.append_assoc, hsplit]

/- The claims. -/

/-- C1 (counterexample): the engine is not idempotent.  On a buffer that
does not mention qiskit, the first pass rewrites the legacy call and
synthesizes a qiskit import, so only the second pass sees the word qiskit
and prepends the installation banner. -/
theorem idempotence_fails_on_bare_execute_call :
    fix_qiskit_code (fix_qiskit_code bareExecuteInput) ≠
      fix_qiskit_code bareExecuteInput := by decide

/-- C1 (amended): idempotence fails in general (see the counterexample): a
second application can prepend the banner when the first one introduced the
only mention of qiskit, and can rewrite an emitted qasm backend lookup when
BasicProvider is in scope.  On a representative buffer that already carries
the banner marker and exercises the import rules and the call rewrite, a
second application changes nothing. -/
theorem idempotent_on_bannered_example :
    fix_qiskit_code (fix_qiskit_code banneredExampleInput) =
      fix_qiskit_code banneredExampleInput := by decide

/-- C2 (counterexample): with a legacy call present, the output does not
always contain exactly one transpile import: two standalone transpile
lines separated by other text are both kept (the injection is skipped
because the import text is present, and the cleanup only collapses
consecutive lines). -/
theorem transpile_import_not_unique_with_separated_duplicates :
    (findFirst executePattern separatedDupCallInput.data).isSome = true ∧
    transpileImportCount (fix_qiskit_code separatedDupCallInput).data = 2 ∧
    transpileImportCount (fix_qiskit_code separatedDupCallInput).data ≠ 1 := by decide

/-- C2 (amended): a unique transpile import is not guaranteed in general, a
universal salvage being blocked even for inputs that never mention
transpile: rule C can rewrite separated execute imports into separated
standalone transpile lines, which then suppress the injection and survive
the consecutive-only cleanup, so two imports remain (third part).  The
uniqueness the claim describes holds on representative buffers with a
single import path, however many call sites are present: a two-site buffer
whose single from-qiskit import list is extended by the injection, and a
two-site buffer with no import statement at all, where one standalone line
is synthesized (first two parts). -/
theorem transpile_import_unique_on_single_import_path :
    ((findFirst executePattern twoCallsExistingImportInput.data).isSome = true ∧
      transpileImportCount (fix_qiskit_code twoCallsExistingImportInput).data = 1) ∧
    ((findFirst executePattern twoCallsNoImportInput.data).isSome = true ∧
      transpileImportCount (fix_qiskit_code twoCallsNoImportInput).data = 1) ∧
    (containsSub ("transpile").data ruleCSeparatedInput.data = false ∧
      (findFirst executePattern ruleCSeparatedInput.data).isSome = true ∧
      transpileImportCount (fix_qiskit_code ruleCSeparatedInput).data = 2) := by decide

/-- C3 (counterexample): a buffer with no legacy import symbol, no legacy
call shape and no legacy named-backend lookup is still changed: it mentions
qiskit without the installation marker, so the banner is prepended. -/
theorem clean_qiskit_input_gains_banner :
    findAll aerImportPattern cleanQiskitInput.data = [] ∧
    findAll basicaerImportPattern cleanQiskitInput.data = [] ∧
    findAll executeImportPattern cleanQiskitInput.data = [] ∧
    findAll basicAerQasmPattern cleanQiskitInput.data = [] ∧
    findAll aerQasmPattern cleanQiskitInput.data = [] ∧
    findAll executePattern cleanQiskitInput.data = [] ∧
    fix_qiskit_code cleanQiskitInput ≠ cleanQiskitInput := by decide

/-- C3 (amended): the engine returns the input unchanged when, in addition
to the cleanliness conditions of the claim (no legacy import statement, no
legacy call shape, no legacy qasm backend lookup), the banner rule does not
fire (no mention of qiskit, or the marker is already present) and the
duplicate-transpile cleanup patterns match nowhere. -/
theorem noop_on_clean_input (x : String)
    (hq : containsSub ("qiskit").data x.data = false ∨
      containsSub ("pip install qiskit-aer").data x.data = true)
    (h1 : findAll aerImportPattern x.data = [])
    (h2 : findAll basicaerImportPattern x.data = [])
    (h3 : findAll executeImportPattern x.data = [])
    (h4 : findAll basicAerQasmPattern x.data = [])
    (h5 : findAll aerQasmPattern x.data = [])
    (h6 : findAll executePattern x.data = [])
    (h7 : findAll dupTranspilePattern x.data = [])
    (h8 : findAll dupTranspileLinePattern x.data = []) :
    fix_qiskit_code x = x := by
  unfold fix_qiskit_code fixCode
  rw [applyBanner_of_clean hq,
    show aerImportStage x.data = x.data from subF_of_no_match h1,
    show basicaerImportStage x.data = x.data from subF_of_no_match h2,
    show executeImportStage x.data = x.data from subF_of_no_match h3,
    show basicAerQasmStage x.data = x.data from subF_of_no_match h4,
    qasmGuardStage_of_no_match h5,
    transpileImportStage_of_no_match h6,
    replaceExecuteMatches_of_no_match h6,
    show dedup1Stage x.data = x.data from subF_of_no_match h7,
    show dedup2Stage x.data = x.data from subF_of_no_match h8]

theorem noop_on_clean_input_witness :
    fix_qiskit_code cleanPlainInput = cleanPlainInput :=
  noop_on_clean_input cleanPlainInput (Or.inl (by decide)) (by decide) (by decide)
    (by decide) (by decide) (by decide) (by decide) (by decide) (by decide)

/-- C4: each legacy call site is replaced by the compile line followed by
the run form matching the captured backend: a bare variable receives the
run call directly, a named lookup first constructs the backend; both run
forms pass the transpiled binding first and append the shots argument
exactly when one was captured.  The last part checks the whole engine on
the call-site rewrite example of the spec. -/
theorem execute_rewrite_replacement_shape :
    (∀ r c v : List Char,
      buildReplacement r c none (some v) none =
        c ++ ("_transpiled = transpile(").data ++ c ++ (")\n").data ++
          r ++ (" = ").data ++ v ++ (".run(").data ++ c ++ ("_transpiled").data ++
          (")").data) ∧
    (∀ r c v sh : List Char,
      buildReplacement r c none (some v) (some sh) =
        c ++ ("_transpiled = transpile(").data ++ c ++ (")\n").data ++
          r ++ (" = ").data ++ v ++ (".run(").data ++ c ++ ("_transpiled").data ++
          (", shots=").data ++ sh ++ (")").data) ∧
    (∀ r c n : List Char,
      buildReplacement r c (some n) none none =
        c ++ ("_transpiled = transpile(").data ++ c ++ (")\n").data ++
          ("simulator = Aer.get_backend(\x27").data ++ n ++ ("\x27)\n").data ++
          r ++ (" = simulator.run(").data ++ c ++ ("_transpiled").data ++
          (")").data) ∧
    (∀ r c n sh : List Char,
      buildReplacement r c (some n) none (some sh) =
        c ++ ("_transpiled = transpile(").data ++ c ++ (")\n").data ++
          ("simulator = Aer.get_backend(\x27").data ++ n ++ ("\x27)\n").data ++
          r ++ (" = simulator.run(").data ++ c ++ ("_transpiled").data ++
          (", shots=").data ++ sh ++ (")").data) ∧
    fix_qiskit_code "result = execute(qc, backend, shots=1000)" =
      "from qiskit import transpile\nqc_transpiled = transpile(qc)\nresult = backend.run(qc_transpiled, shots=1000)" := by
  refine ⟨?_, ?_, ?_, ?_, by decide⟩ <;>
    intros <;> simp [buildReplacement, List.append_assoc]

/-- C5: rewriting an import list containing Aer plus N other symbols keeps
exactly those N symbols, in their original relative order (the filter step
of the source), on the from-qiskit line, followed by the dedicated
from-qiskit-aer line; with no other symbol only the new statement remains.
The symbols are assumed clean: free of commas and of outer whitespace. -/
theorem aer_import_symbol_preservation (syms : List (List Char))
    (hne : syms ≠ [])
    (hcl : ∀ s ∈ syms, s.all (fun d => d != ',') = true ∧ pyStrip s = s)
    (hmem : ("Aer").data ∈ syms) :
    fix_aer_import (joinSep (", ").data syms) =
      if (syms.filter (fun it => it != ("Aer").data)).isEmpty then
        ("from qiskit_aer import Aer").data
      else
        ("from qiskit import ").data ++
          joinSep (", ").data (syms.filter (fun it => it != ("Aer").data)) ++
          ("\nfrom qiskit_aer import Aer").data := by
  simp only [fix_aer_import]
  rw [split_join syms hne hcl]

theorem aer_import_symbol_preservation_witness :
    fix_aer_import (joinSep (", ").data
        [("QuantumCircuit").data, ("Aer").data, ("execute").data]) =
      if (([("QuantumCircuit").data, ("Aer").data, ("execute").data].filter
            (fun it => it != ("Aer").data)).isEmpty) then
        ("from qiskit_aer import Aer").data
      else
        ("from qiskit import ").data ++
          joinSep (", ").data
            ([("QuantumCircuit").data, ("Aer").data, ("execute").data].filter
              (fun it => it != ("Aer").data)) ++
          ("\nfrom qiskit_aer import Aer").data :=
  aer_import_symbol_preservation _ (by decide) (by decide) (by decide)

/-- C6: the source applies the collected call-site replacements in reverse
order of match start offset (the reversed fold of applyRevRepl inside
replaceExecuteMatches); for any buffer whose match list is sorted,
non-overlapping and in bounds, the result equals a single forward walk that
keeps every rewritten block in the top-to-bottom order of its original call
site and copies the text between and around the spans verbatim. -/
theorem reverse_replacement_preserves_order (code : List Char)
    (h : spansOKb code.length 0 (findAll executePattern code) = true) :
    replaceExecuteMatches code =
      spliceFwd code code execRepl 0 (findAll executePattern code) := by
  have h2 := applyRev_eq_spliceFwd code code execRepl (findAll executePattern code) 0 h
  simpa [replaceExecuteMatches] using h2

theorem reverse_replacement_preserves_order_witness :
    spansOKb twoCallsNoImportInput.data.length 0
        (findAll executePattern twoCallsNoImportInput.data) = true ∧
      replaceExecuteMatches twoCallsNoImportInput.data =
        spliceFwd twoCallsNoImportInput.data twoCallsNoImportInput.data execRepl 0
          (findAll executePattern twoCallsNoImportInput.data) :=
  ⟨by decide, reverse_replacement_preserves_order _ (by decide)⟩

/-- C7 (counterexample): the synthesized transpile import is not inserted
after the leading comment and import runs: the source scans every comment
line of the buffer, so a comment after the first code line drags the
insertion point down and the generated import lands below it. -/
theorem synth_import_follows_trailing_comment :
    synthInsertPos lateCommentInput.data ≠ leadingRunsEnd lateCommentInput.data ∧
    fix_qiskit_code lateCommentInput =
      "x = 1\n# late comment\nfrom qiskit import transpile\nqc_transpiled = transpile(qc)\nresult = backend.run(qc_transpiled)\n" := by decide

/-- C7 (amended): the synthesized line is inserted after the end of the
last comment line anywhere in the buffer, then after the last import line
starting at or after that point (the offset synthInsertPos).  When every
comment and import line of the buffer is leading, this coincides with the
position after the leading runs that the claim describes, as on this
representative buffer. -/
theorem synth_import_after_leading_runs_case :
    synthInsertPos leadingBlockInput.data = leadingRunsEnd leadingBlockInput.data ∧
    fix_qiskit_code leadingBlockInput =
      "# top comment\nimport os\nfrom qiskit import transpile\nqc_transpiled = transpile(qc)\nresult = backend.run(qc_transpiled)\n" := by decide

/-- C8 (counterexample): two standalone transpile import lines separated by
another line both survive: the cleanup pattern only matches a consecutive
run, so the output keeps both occurrences rather than exactly one. -/
theorem separated_duplicate_import_lines_survive :
    countSub dupTranspileLine separatedDupLinesInput.data = 2 ∧
    countSub dupTranspileLine (fix_qiskit_code separatedDupLinesInput).data = 2 ∧
    countSub dupTranspileLine (fix_qiskit_code separatedDupLinesInput).data ≠ 1 := by
  decide

/-- C8 (amended): only consecutive duplicate occurrences of the standalone
transpile import line are collapsed to a single occurrence, as on this
buffer carrying the line twice in a row. -/
theorem consecutive_duplicate_import_lines_collapse :
    countSub dupTranspileLine consecutiveDupLinesInput.data = 2 ∧
    countSub dupTranspileLine (fix_qiskit_code consecutiveDupLinesInput).data = 1 := by
  decide

/-- C9: the import rules run in the fixed order Aer, BasicAer, execute,
each on the output of the previous one (the nesting inside fixCode), and a
single line naming both provider symbols is handled sequentially: rule A
removes Aer and leaves a residual from-qiskit-import of BasicAer, which
rule B then rewrites to the BasicProvider import; rule C leaves the result
unchanged, and the full engine adds only the banner on top. -/
theorem import_rules_ordered_multi_symbol_line :
    aerImportStage (("from qiskit import Aer, BasicAer").data) =
      ("from qiskit import BasicAer\nfrom qiskit_aer import Aer").data ∧
    basicaerImportStage
        (("from qiskit import BasicAer\nfrom qiskit_aer import Aer").data) =
      ("from qiskit.providers.basic_provider import BasicProvider\nfrom qiskit_aer import Aer").data ∧
    executeImportStage
        (("from qiskit.providers.basic_provider import BasicProvider\nfrom qiskit_aer import Aer").data) =
      ("from qiskit.providers.basic_provider import BasicProvider\nfrom qiskit_aer import Aer").data ∧
    fix_qiskit_code "from qiskit import Aer, BasicAer" =
      "# Make sure to install qiskit-aer first:\n# pip install qiskit-aer\n\nfrom qiskit.providers.basic_provider import BasicProvider\nfrom qiskit_aer import Aer" := by
  decide

/-- C10: a named-backend call site always binds the constructed backend to
the fixed name simulator, whatever the captured result, circuit and backend
names are (the two equations), so a buffer with two named-backend call
sites rewrites both blocks onto the same simulator binding (the concrete
run). -/
theorem named_backend_binds_fixed_simulator_name :
    (∀ r c n : List Char,
      buildReplacement r c (some n) none none =
        c ++ ("_transpiled = transpile(").data ++ c ++ (")\n").data ++
          ("simulator = Aer.get_backend(\x27").data ++ n ++ ("\x27)\n").data ++
          r ++ (" = simulator.run(").data ++ c ++ ("_transpiled").data ++
          (")").data) ∧
    (∀ r c n sh : List Char,
      buildReplacement r c (some n) none (some sh) =
        c ++ ("_transpiled = transpile(").data ++ c ++ (")\n").data ++
          ("simulator = Aer.get_backend(\x27").data ++ n ++ ("\x27)\n").data ++
          r ++ (" = simulator.run(").data ++ c ++ ("_transpiled").data ++
          (", shots=").data ++ sh ++ (")").data) ∧
    fix_qiskit_code twoNamedBackendInput =
      "from qiskit import transpile\nqc1_transpiled = transpile(qc1)\nsimulator = Aer.get_backend(\x27sv1\x27)\nr1 = simulator.run(qc1_transpiled)\nqc2_transpiled = transpile(qc2)\nsimulator = Aer.get_backend(\x27sv2\x27)\nr2 = simulator.run(qc2_transpiled)\n" := by
  refine ⟨?_, ?_, by decide⟩ <;> intros <;> simp [buildReplacement, List.append_assoc]

end QiskitFix
